import Mathlib

/-
Verification of the SolCipher_Cronos decision engine.

Shallow embedding of src/decision_engine.py (class DecisionEngine):
`make_decision` with its threshold ladder and critical-pattern override,
the pending-decisions queue with its drain operation, and of the risk
aggregator `calculate_risk_score` described by the spec (its source file
risk_analyzer.py is not present; only its tests are).

Python floats are modelled by Rat, Python dicts of payment data by a
structure of Option fields (a missing key is none), Python string
operations (str(dict), lower(), substring `in`) by executable functions
on Lean strings.
-/

namespace SolCipher

/-- Substring machinery: does the first list occur as a prefix of the second?
Mirrors the leading-position check of Python string containment. -/
def strHasPre : List Char → List Char → Bool
  | [], _ => true
  | _ :: _, [] => false
  | a :: as, b :: bs => a == b && strHasPre as bs

/-- Does the first list occur as a contiguous sublist of the second?
Mirrors the Python expression `keyword in metadata_str`. -/
def strHasSub (pat : List Char) : List Char → Bool
  | [] => strHasPre pat []
  | b :: bs => strHasPre pat (b :: bs) || strHasSub pat bs

/-- Python lower(): lowercase every character (ASCII, as used by the code). -/
def pyLower (s : String) : String :=
  String.mk (s.toList.map Char.toLower)

/-- The single-quote character of the Python dict repr. -/
def sq : String := String.singleton (Char.ofNat 39)

/-- The opening brace of the Python dict repr. -/
def lb : String := String.singleton (Char.ofNat 123)

/-- The closing brace of the Python dict repr. -/
def rb : String := String.singleton (Char.ofNat 125)

/-- Python repr of one key-value pair of a string-valued dict. -/
def pyReprPair (p : String × String) : String :=
  sq ++ p.1 ++ sq ++ ": " ++ sq ++ p.2 ++ sq

/-- Python str() of a string-valued dict: str({}) is the empty braces,
otherwise the comma-separated pairs between braces, in insertion order. -/
def pyReprMetadata : List (String × String) → String
  | [] => lb ++ rb
  | p :: ps => lb ++ String.intercalate (", ") ((p :: ps).map pyReprPair) ++ rb

/-- Payment data passed to make_decision: a Python dict whose keys
timestamp, amount and metadata may each be absent (none). -/
structure PaymentData where
  timestamp : Option String
  amount : Option Rat
  metadata : Option (List (String × String))
deriving Repr, DecidableEq

/-- A decision record as built by DecisionEngine.make_decision. -/
structure Decision where
  payment_id : String
  risk_score : Rat
  timestamp : Option String
  action : String
  reason : String
  privacy_level : Option String
deriving Repr, DecidableEq

/-- Python `payment_data.get('amount', 0)`. -/
def amountD (pd : PaymentData) : Rat := pd.amount.getD 0

/-- Python `payment_data.get('metadata', \x7b\x7d)`. -/
def metadataD (pd : PaymentData) : List (String × String) := pd.metadata.getD []

/-- The fixed suspicious keyword list of _check_critical_patterns. -/
def suspicious_keywords : List String := ["exploit", "hack", "drain", "rug"]

/-- The keyword loop of _check_critical_patterns: lowercase the str() of the
metadata dict and test each keyword for substring containment. -/
def keyword_match (pd : PaymentData) : Bool :=
  suspicious_keywords.any
    (fun kw => strHasSub kw.toList (pyLower (pyReprMetadata (metadataD pd))).toList)

/-- DecisionEngine._check_critical_patterns: amount above 100000 units, or a
suspicious keyword in the metadata representation. -/
def check_critical_patterns (pd : PaymentData) : Bool :=
  if amountD pd > 100000 then true
  else keyword_match pd

/-- The threshold ladder of make_decision (the if/elif chain on risk_score),
producing the decision record before the critical-pattern override. -/
def ladder_decision (payment_id : String) (risk_score : Rat) (pd : PaymentData) : Decision :=
  if risk_score < 20 then
    { payment_id := payment_id, risk_score := risk_score, timestamp := pd.timestamp,
      action := ("approve"), reason := ("Very low risk transaction"), privacy_level := none }
  else if risk_score < 40 then
    { payment_id := payment_id, risk_score := risk_score, timestamp := pd.timestamp,
      action := ("approve"), reason := ("Low risk transaction"), privacy_level := none }
  else if risk_score < 60 then
    { payment_id := payment_id, risk_score := risk_score, timestamp := pd.timestamp,
      action := ("verify_zk_proof"),
      reason := ("Medium risk - additional verification required"), privacy_level := none }
  else if risk_score < 80 then
    { payment_id := payment_id, risk_score := risk_score, timestamp := pd.timestamp,
      action := ("enhance_privacy"),
      reason := ("High risk - enhanced privacy measures applied"),
      privacy_level := some ("high") }
  else
    { payment_id := payment_id, risk_score := risk_score, timestamp := pd.timestamp,
      action := ("flag"), reason := ("Very high risk - flagged for manual review"),
      privacy_level := none }

/-- The decision record returned by make_decision: the ladder result, with
action and reason overwritten when a critical pattern fires. -/
def make_decision_body (payment_id : String) (risk_score : Rat) (pd : PaymentData) : Decision :=
  let d := ladder_decision payment_id risk_score pd
  if check_critical_patterns pd then
    { d with action := ("flag"), reason := ("Critical risk pattern detected") }
  else d

/-- The mutable state of a DecisionEngine instance: the stored config dict,
the risk_threshold read from it, the contract address, and the
pending-decisions queue. -/
structure EngineState where
  config : List (String × String)
  risk_threshold : Rat
  contract_address : Option String
  pending_decisions : List Decision
deriving Repr, DecidableEq

/-- DecisionEngine.make_decision: builds the decision record and appends it
to the pending-decisions queue, returning both the record and the new state. -/
def make_decision (st : EngineState) (payment_id : String) (risk_score : Rat)
    (pd : PaymentData) : Decision × EngineState :=
  let d := make_decision_body payment_id risk_score pd
  (d, { st with pending_decisions := st.pending_decisions ++ [d] })

/-- DecisionEngine.get_pending_decisions: copy the queue, clear it, return
the copy. -/
def get_pending_decisions (st : EngineState) : List Decision × EngineState :=
  (st.pending_decisions, { st with pending_decisions := [] })

/-- A sequence of make_decision calls run left to right from a state. -/
def runCalls : EngineState → List (String × Rat × PaymentData) → EngineState
  | st, [] => st
  | st, c :: cs => runCalls (make_decision st c.1 c.2.1 c.2.2).2 cs

/-- The decision each call of a sequence produces. -/
def decisionsOf (cs : List (String × Rat × PaymentData)) : List Decision :=
  cs.map (fun c => make_decision_body c.1 c.2.1 c.2.2)

/-- A factor vector: the six risk factors, each a real value. -/
structure FactorVector where
  amount_anomaly : Rat
  velocity : Rat
  address_reputation : Rat
  pattern_matching : Rat
  time_based : Rat
  metadata_analysis : Rat
deriving Repr, DecidableEq

/-- The fixed six-entry weight mapping of the risk aggregator. -/
structure RiskWeights where
  amount_anomaly : Rat
  velocity : Rat
  address_reputation : Rat
  pattern_matching : Rat
  time_based : Rat
  metadata_analysis : Rat
deriving Repr, DecidableEq

/-- Total weight of the six entries. -/
def RiskWeights.total (w : RiskWeights) : Rat :=
  w.amount_anomaly + w.velocity + w.address_reputation +
    w.pattern_matching + w.time_based + w.metadata_analysis

/-- The weighted sum of the six factors under the given weights. -/
def weighted_sum (w : RiskWeights) (f : FactorVector) : Rat :=
  w.amount_anomaly * f.amount_anomaly + w.velocity * f.velocity +
    w.address_reputation * f.address_reputation +
    w.pattern_matching * f.pattern_matching + w.time_based * f.time_based +
    w.metadata_analysis * f.metadata_analysis

/-- Modelled from the spec: `calculate_risk_score` of risk_analyzer.py, whose
source file is absent from src (only its tests are present). Per the spec it
computes a weighted sum of the six factors using RiskWeights, treats the
weights as a convex combination (normalizing by the total weight), and
rescales to the 0-100 range. -/
def calculate_risk_score (w : RiskWeights) (f : FactorVector) : Rat :=
  100 * weighted_sum w f / w.total

/-- A benign concrete payment data value used by witnesses. -/
def pdClean : PaymentData := ⟨none, some 5, some [("purpose", "invoice")]⟩

/-- A concrete payment data value with all three keys present. -/
def pd0 : PaymentData := ⟨some ("2024-01-01T00:00:00"), some 5, some [("purpose", "invoice")]⟩

/-- A concrete payment data value whose amount exceeds the critical cutoff. -/
def pdBig : PaymentData := ⟨some ("t"), some 200000, none⟩

/-- A concrete payment data value whose metadata hides a suspicious keyword
inside a longer upper-case word. -/
def pdHack : PaymentData := ⟨none, some 5, some [("note", "HACKATHON")]⟩

/-- A concrete payment data value with no metadata key at all. -/
def pdNoMeta : PaymentData := ⟨none, some 5, none⟩

/-- With no critical pattern, make_decision returns the ladder decision. -/
theorem body_no_override (pid : String) (score : Rat) (pd : PaymentData)
    (hc : check_critical_patterns pd = false) :
    make_decision_body pid score pd = ladder_decision pid score pd := by
  simp [make_decision_body, hc]

/-- With a critical pattern, make_decision returns the ladder decision with
only action and reason overwritten. -/
theorem body_override (pid : String) (score : Rat) (pd : PaymentData)
    (hc : check_critical_patterns pd = true) :
    make_decision_body pid score pd =
      { ladder_decision pid score pd with
        action := ("flag"), reason := ("Critical risk pattern detected") } := by
  simp [make_decision_body, hc]

/-- C1: for every risk score in the 0 to 100 range and payment data that
triggers no critical override, make_decision follows the fixed threshold
ladder: below 20 and in 20 to 40 it approves, in 40 to 60 it requires ZK
proof verification, in 60 to 80 it enhances privacy and sets privacy_level
high, and at 80 and above it flags; the returned record carries the given
payment_id, the given risk_score, the payment data timestamp, and the
branch reason string. -/
theorem claim_C1_threshold_ladder (st : EngineState) (pid : String) (score : Rat)
    (pd : PaymentData) (h0 : 0 ≤ score) (h100 : score ≤ 100)
    (hc : check_critical_patterns pd = false) :
    (score < 20 →
      (make_decision st pid score pd).1.action = ("approve") ∧
      (make_decision st pid score pd).1.reason = ("Very low risk transaction")) ∧
    (20 ≤ score → score < 40 →
      (make_decision st pid score pd).1.action = ("approve") ∧
      (make_decision st pid score pd).1.reason = ("Low risk transaction")) ∧
    (40 ≤ score → score < 60 →
      (make_decision st pid score pd).1.action = ("verify_zk_proof") ∧
      (make_decision st pid score pd).1.reason =
        ("Medium risk - additional verification required")) ∧
    (60 ≤ score → score < 80 →
      (make_decision st pid score pd).1.action = ("enhance_privacy") ∧
      (make_decision st pid score pd).1.privacy_level = some ("high") ∧
      (make_decision st pid score pd).1.reason =
        ("High risk - enhanced privacy measures applied")) ∧
    (80 ≤ score →
      (make_decision st pid score pd).1.action = ("flag") ∧
      (make_decision st pid score pd).1.reason =
        ("Very high risk - flagged for manual review")) ∧
    (make_decision st pid score pd).1.payment_id = pid ∧
    (make_decision st pid score pd).1.risk_score = score ∧
    (make_decision st pid score pd).1.timestamp = pd.timestamp := by
  have hb : (make_decision st pid score pd).1 = ladder_decision pid score pd :=
    body_no_override pid score pd hc
  rw [hb]
  unfold ladder_decision
  refine ⟨?_, ?_, ?_, ?_, ?_, ?_, ?_, ?_⟩ <;> intros <;> split_ifs <;>
    first
      | rfl
      | exact ⟨rfl, rfl⟩
      | exact ⟨rfl, rfl, rfl⟩
      | (exfalso; linarith)

/-- Witness for C1 at score 10 on benign payment data. -/
theorem claim_C1_witness :
    (make_decision ⟨[], 1, none, []⟩ ("p1") 10 pdClean).1.action = ("approve") ∧
    (make_decision ⟨[], 1, none, []⟩ ("p1") 10 pdClean).1.reason =
      ("Very low risk transaction") :=
  (claim_C1_threshold_ladder ⟨[], 1, none, []⟩ ("p1") 10 pdClean
    (by norm_num) (by norm_num) (by decide)).1 (by norm_num)

/-- C2: whenever the amount exceeds 100000 units or the metadata matches a
suspicious keyword, make_decision returns action flag with the critical
pattern reason, regardless of the risk score. -/
theorem claim_C2_critical_override (st : EngineState) (pid : String) (score : Rat)
    (pd : PaymentData) (h : amountD pd > 100000 ∨ keyword_match pd = true) :
    (make_decision st pid score pd).1.action = ("flag") ∧
    (make_decision st pid score pd).1.reason = ("Critical risk pattern detected") := by
  have hc : check_critical_patterns pd = true := by
    unfold check_critical_patterns
    rcases h with h | h
    · simp [h]
    · split_ifs <;> simp [h]
  have hb : (make_decision st pid score pd).1 =
      { ladder_decision pid score pd with
        action := ("flag"), reason := ("Critical risk pattern detected") } :=
    body_override pid score pd hc
  rw [hb]
  exact ⟨rfl, rfl⟩

/-- Witness for C2: a low-score payment of amount 200000 is still flagged. -/
theorem claim_C2_witness :
    (make_decision ⟨[], 1, none, []⟩ ("p1") 10 pdBig).1.action = ("flag") ∧
    (make_decision ⟨[], 1, none, []⟩ ("p1") 10 pdBig).1.reason =
      ("Critical risk pattern detected") :=
  claim_C2_critical_override ⟨[], 1, none, []⟩ ("p1") 10 pdBig (Or.inl (by decide))

/-- C3: make_decision is total on every interpretable input and degrades
missing fields rather than failing: the action is always one of the four
known actions, the returned timestamp is exactly the payment data timestamp
(none when the key is missing), missing metadata behaves as the empty
mapping, and a missing amount behaves as amount 0. In the embedding the
try body of make_decision never reaches the exception branch, so no
exception propagates to the caller. -/
theorem claim_C3_total_and_degrades (st : EngineState) (pid : String) (score : Rat)
    (pd : PaymentData) :
    (make_decision st pid score pd).1.action ∈
      (["approve", "verify_zk_proof", "enhance_privacy", "flag"] : List String) ∧
    (make_decision st pid score pd).1.timestamp = pd.timestamp ∧
    make_decision st pid score { pd with metadata := none } =
      make_decision st pid score { pd with metadata := some [] } ∧
    make_decision st pid score { pd with amount := none } =
      make_decision st pid score { pd with amount := some 0 } := by
  refine ⟨?_, ?_, rfl, rfl⟩
  · have hb : (make_decision st pid score pd).1 = make_decision_body pid score pd := rfl
    rw [hb]
    simp only [make_decision_body, ladder_decision]
    split_ifs <;> simp
  · have hb : (make_decision st pid score pd).1 = make_decision_body pid score pd := rfl
    rw [hb]
    simp only [make_decision_body, ladder_decision]
    split_ifs <;> rfl

/-- The queue after a run of make_decision calls is the starting queue
followed by the produced decisions in call order. -/
theorem runCalls_pending (st : EngineState) (cs : List (String × Rat × PaymentData)) :
    (runCalls st cs).pending_decisions = st.pending_decisions ++ decisionsOf cs := by
  induction cs generalizing st with
  | nil => simp [runCalls, decisionsOf]
  | cons c cs ih =>
    simp only [runCalls, decisionsOf, List.map_cons]
    rw [ih]
    simp [make_decision, decisionsOf]

/-- C4: starting from a drained queue, after any sequence of make_decision
calls one get_pending_decisions call returns exactly the produced decisions
in append order, empties the queue in the same step, and an immediately
following second drain returns the empty list. -/
theorem claim_C4_drain (st : EngineState) (cs : List (String × Rat × PaymentData))
    (h : st.pending_decisions = []) :
    (get_pending_decisions (runCalls st cs)).1 = decisionsOf cs ∧
    (get_pending_decisions (runCalls st cs)).2.pending_decisions = [] ∧
    (get_pending_decisions ((get_pending_decisions (runCalls st cs)).2)).1 = [] := by
  refine ⟨?_, rfl, rfl⟩
  show (runCalls st cs).pending_decisions = decisionsOf cs
  rw [runCalls_pending, h]
  simp

/-- Witness for C4: two appended decisions drain once, then the queue is
empty. -/
theorem claim_C4_witness :
    (get_pending_decisions (runCalls ⟨[], 1, none, []⟩
        [(("p1"), 10, pd0), (("p2"), 50, pd0)])).1 =
      decisionsOf [(("p1"), 10, pd0), (("p2"), 50, pd0)] ∧
    (get_pending_decisions (runCalls ⟨[], 1, none, []⟩
        [(("p1"), 10, pd0), (("p2"), 50, pd0)])).2.pending_decisions = [] ∧
    (get_pending_decisions ((get_pending_decisions (runCalls ⟨[], 1, none, []⟩
        [(("p1"), 10, pd0), (("p2"), 50, pd0)])).2)).1 = [] :=
  claim_C4_drain ⟨[], 1, none, []⟩ [(("p1"), 10, pd0), (("p2"), 50, pd0)] rfl

/-- C5: the configured risk_threshold does not gate the decision: two engine
states that agree on everything except risk_threshold produce identical
decision records from make_decision on the same input. -/
theorem claim_C5_risk_threshold_noninterference (s1 s2 : EngineState)
    (pid : String) (score : Rat) (pd : PaymentData)
    (hcfg : s1.config = s2.config)
    (hca : s1.contract_address = s2.contract_address)
    (hq : s1.pending_decisions = s2.pending_decisions) :
    (make_decision s1 pid score pd).1 = (make_decision s2 pid score pd).1 := rfl

/-- Witness for C5: risk_threshold three quarters versus one quarter. -/
theorem claim_C5_witness :
    (make_decision ⟨[], (3 : Rat) / 4, none, []⟩ ("p1") 50 pd0).1 =
      (make_decision ⟨[], (1 : Rat) / 4, none, []⟩ ("p1") 50 pd0).1 :=
  claim_C5_risk_threshold_noninterference
    ⟨[], (3 : Rat) / 4, none, []⟩ ⟨[], (1 : Rat) / 4, none, []⟩
    ("p1") 50 pd0 rfl rfl rfl

/-- C6: make_decision appends exactly the decision it returns to the tail of
the pending-decisions queue and leaves the previously queued decisions, the
stored config, the risk_threshold, and the contract address unchanged. -/
theorem claim_C6_frame (st : EngineState) (pid : String) (score : Rat)
    (pd : PaymentData) :
    (make_decision st pid score pd).2.pending_decisions =
      st.pending_decisions ++ [(make_decision st pid score pd).1] ∧
    (make_decision st pid score pd).2.config = st.config ∧
    (make_decision st pid score pd).2.risk_threshold = st.risk_threshold ∧
    (make_decision st pid score pd).2.contract_address = st.contract_address :=
  ⟨rfl, rfl, rfl, rfl⟩

/-- Monotonicity of the rescaled score in the weighted sum. -/
theorem calc_mono (w : RiskWeights) (hT : 0 < w.total) (f g : FactorVector)
    (h : weighted_sum w f ≤ weighted_sum w g) :
    calculate_risk_score w f ≤ calculate_risk_score w g := by
  unfold calculate_risk_score
  rw [div_le_div_iff₀ hT hT]
  nlinarith [mul_le_mul_of_nonneg_right h (le_of_lt hT)]

/-- C7: with nonnegative weights of positive total, calculate_risk_score
maps the all-zero factor vector to 0, the all-one factor vector to 100, and
is monotonically non-decreasing in each of the six factors while the other
five are held fixed. -/
theorem claim_C7_calculate_risk_score (w : RiskWeights)
    (hw : 0 ≤ w.amount_anomaly ∧ 0 ≤ w.velocity ∧ 0 ≤ w.address_reputation ∧
      0 ≤ w.pattern_matching ∧ 0 ≤ w.time_based ∧ 0 ≤ w.metadata_analysis)
    (hT : 0 < w.total) :
    calculate_risk_score w ⟨0, 0, 0, 0, 0, 0⟩ = 0 ∧
    calculate_risk_score w ⟨1, 1, 1, 1, 1, 1⟩ = 100 ∧
    (∀ a b v ar pm tb ma, a ≤ b →
      calculate_risk_score w ⟨a, v, ar, pm, tb, ma⟩ ≤
        calculate_risk_score w ⟨b, v, ar, pm, tb, ma⟩) ∧
    (∀ a v v2 ar pm tb ma, v ≤ v2 →
      calculate_risk_score w ⟨a, v, ar, pm, tb, ma⟩ ≤
        calculate_risk_score w ⟨a, v2, ar, pm, tb, ma⟩) ∧
    (∀ a v ar ar2 pm tb ma, ar ≤ ar2 →
      calculate_risk_score w ⟨a, v, ar, pm, tb, ma⟩ ≤
        calculate_risk_score w ⟨a, v, ar2, pm, tb, ma⟩) ∧
    (∀ a v ar pm pm2 tb ma, pm ≤ pm2 →
      calculate_risk_score w ⟨a, v, ar, pm, tb, ma⟩ ≤
        calculate_risk_score w ⟨a, v, ar, pm2, tb, ma⟩) ∧
    (∀ a v ar pm tb tb2 ma, tb ≤ tb2 →
      calculate_risk_score w ⟨a, v, ar, pm, tb, ma⟩ ≤
        calculate_risk_score w ⟨a, v, ar, pm, tb2, ma⟩) ∧
    (∀ a v ar pm tb ma ma2, ma ≤ ma2 →
      calculate_risk_score w ⟨a, v, ar, pm, tb, ma⟩ ≤
        calculate_risk_score w ⟨a, v, ar, pm, tb, ma2⟩) := by
  obtain ⟨hw1, hw2, hw3, hw4, hw5, hw6⟩ := hw
  refine ⟨?_, ?_, ?_, ?_, ?_, ?_, ?_, ?_⟩
  · unfold calculate_risk_score weighted_sum
    simp
  · have h1 : weighted_sum w ⟨1, 1, 1, 1, 1, 1⟩ = w.total := by
      unfold weighted_sum RiskWeights.total
      ring
    unfold calculate_risk_score
    rw [h1, mul_div_assoc, div_self (ne_of_gt hT), mul_one]
  · intro a b v ar pm tb ma hab
    apply calc_mono w hT
    show w.amount_anomaly * a + w.velocity * v + w.address_reputation * ar +
        w.pattern_matching * pm + w.time_based * tb + w.metadata_analysis * ma ≤
      w.amount_anomaly * b + w.velocity * v + w.address_reputation * ar +
        w.pattern_matching * pm + w.time_based * tb + w.metadata_analysis * ma
    have hm := mul_le_mul_of_nonneg_left hab hw1
    linarith
  · intro a v v2 ar pm tb ma hab
    apply calc_mono w hT
    show w.amount_anomaly * a + w.velocity * v + w.address_reputation * ar +
        w.pattern_matching * pm + w.time_based * tb + w.metadata_analysis * ma ≤
      w.amount_anomaly * a + w.velocity * v2 + w.address_reputation * ar +
        w.pattern_matching * pm + w.time_based * tb + w.metadata_analysis * ma
    have hm := mul_le_mul_of_nonneg_left hab hw2
    linarith
  · intro a v ar ar2 pm tb ma hab
    apply calc_mono w hT
    show w.amount_anomaly * a + w.velocity * v + w.address_reputation * ar +
        w.pattern_matching * pm + w.time_based * tb + w.metadata_analysis * ma ≤
      w.amount_anomaly * a + w.velocity * v + w.address_reputation * ar2 +
        w.pattern_matching * pm + w.time_based * tb + w.metadata_analysis * ma
    have hm := mul_le_mul_of_nonneg_left hab hw3
    linarith
  · intro a v ar pm pm2 tb ma hab
    apply calc_mono w hT
    show w.amount_anomaly * a + w.velocity * v + w.address_reputation * ar +
        w.pattern_matching * pm + w.time_based * tb + w.metadata_analysis * ma ≤
      w.amount_anomaly * a + w.velocity * v + w.address_reputation * ar +
        w.pattern_matching * pm2 + w.time_based * tb + w.metadata_analysis * ma
    have hm := mul_le_mul_of_nonneg_left hab hw4
    linarith
  · intro a v ar pm tb tb2 ma hab
    apply calc_mono w hT
    show w.amount_anomaly * a + w.velocity * v + w.address_reputation * ar +
        w.pattern_matching * pm + w.time_based * tb + w.metadata_analysis * ma ≤
      w.amount_anomaly * a + w.velocity * v + w.address_reputation * ar +
        w.pattern_matching * pm + w.time_based * tb2 + w.metadata_analysis * ma
    have hm := mul_le_mul_of_nonneg_left hab hw5
    linarith
  · intro a v ar pm tb ma ma2 hab
    apply calc_mono w hT
    show w.amount_anomaly * a + w.velocity * v + w.address_reputation * ar +
        w.pattern_matching * pm + w.time_based * tb + w.metadata_analysis * ma ≤
      w.amount_anomaly * a + w.velocity * v + w.address_reputation * ar +
        w.pattern_matching * pm + w.time_based * tb + w.metadata_analysis * ma2
    have hm := mul_le_mul_of_nonneg_left hab hw6
    linarith

/-- Witness for C7 with unit weights. -/
theorem claim_C7_witness :
    calculate_risk_score ⟨1, 1, 1, 1, 1, 1⟩ ⟨0, 0, 0, 0, 0, 0⟩ = 0 ∧
    calculate_risk_score ⟨1, 1, 1, 1, 1, 1⟩ ⟨1, 1, 1, 1, 1, 1⟩ = 100 :=
  ⟨(claim_C7_calculate_risk_score ⟨1, 1, 1, 1, 1, 1⟩ (by decide)
      (by norm_num [RiskWeights.total])).1,
   (claim_C7_calculate_risk_score ⟨1, 1, 1, 1, 1, 1⟩ (by decide)
      (by norm_num [RiskWeights.total])).2.1⟩

/-- C8: when the score lies in 60 to 80 and a critical pattern fires, the
override rewrites only the action and reason: the flagged decision still
carries privacy_level high and the ladder-set payment_id, risk_score and
timestamp unchanged. -/
theorem claim_C8_override_preserves_privacy (st : EngineState) (pid : String)
    (score : Rat) (pd : PaymentData)
    (h60 : 60 ≤ score) (h80 : score < 80)
    (hc : check_critical_patterns pd = true) :
    (make_decision st pid score pd).1.action = ("flag") ∧
    (make_decision st pid score pd).1.reason = ("Critical risk pattern detected") ∧
    (make_decision st pid score pd).1.privacy_level = some ("high") ∧
    (make_decision st pid score pd).1.payment_id = pid ∧
    (make_decision st pid score pd).1.risk_score = score ∧
    (make_decision st pid score pd).1.timestamp = pd.timestamp := by
  have hb : (make_decision st pid score pd).1 =
      { ladder_decision pid score pd with
        action := ("flag"), reason := ("Critical risk pattern detected") } :=
    body_override pid score pd hc
  rw [hb]
  unfold ladder_decision
  split_ifs <;>
    first
      | exact ⟨rfl, rfl, rfl, rfl, rfl, rfl⟩
      | (exfalso; linarith)

/-- Witness for C8: score 70 with amount 200000 is flagged but keeps
privacy_level high. -/
theorem claim_C8_witness :
    (make_decision ⟨[], 1, none, []⟩ ("p1") 70 pdBig).1.action = ("flag") ∧
    (make_decision ⟨[], 1, none, []⟩ ("p1") 70 pdBig).1.reason =
      ("Critical risk pattern detected") ∧
    (make_decision ⟨[], 1, none, []⟩ ("p1") 70 pdBig).1.privacy_level =
      some ("high") ∧
    (make_decision ⟨[], 1, none, []⟩ ("p1") 70 pdBig).1.payment_id = ("p1") ∧
    (make_decision ⟨[], 1, none, []⟩ ("p1") 70 pdBig).1.risk_score = 70 ∧
    (make_decision ⟨[], 1, none, []⟩ ("p1") 70 pdBig).1.timestamp =
      pdBig.timestamp :=
  claim_C8_override_preserves_privacy ⟨[], 1, none, []⟩ ("p1") 70 pdBig
    (by norm_num) (by norm_num) (by decide)

/-- C9: make_decision performs no range validation on the score: every score
below 20, negative values included, approves when no override fires, and
every score of 80 or more, values above 100 included, flags. -/
theorem claim_C9_no_range_validation (st : EngineState) (pid : String)
    (score : Rat) (pd : PaymentData) :
    (score < 20 → check_critical_patterns pd = false →
      (make_decision st pid score pd).1.action = ("approve")) ∧
    (80 ≤ score → (make_decision st pid score pd).1.action = ("flag")) := by
  constructor
  · intro hs hc
    have hb : (make_decision st pid score pd).1 = ladder_decision pid score pd :=
      body_no_override pid score pd hc
    rw [hb]
    unfold ladder_decision
    split_ifs <;> first | rfl | (exfalso; linarith)
  · intro hs
    have hb : (make_decision st pid score pd).1 = make_decision_body pid score pd := rfl
    rw [hb]
    simp only [make_decision_body, ladder_decision]
    split_ifs <;> first | rfl | (exfalso; linarith)

/-- Witness for C9 at score minus five and score 150. -/
theorem claim_C9_witness :
    (make_decision ⟨[], 1, none, []⟩ ("p1") (-5) pdClean).1.action = ("approve") ∧
    (make_decision ⟨[], 1, none, []⟩ ("p2") 150 pdClean).1.action = ("flag") :=
  ⟨(claim_C9_no_range_validation ⟨[], 1, none, []⟩ ("p1") (-5) pdClean).1
      (by norm_num) (by decide),
   (claim_C9_no_range_validation ⟨[], 1, none, []⟩ ("p2") 150 pdClean).2
      (by norm_num)⟩

/-- C10: any suspicious keyword occurring as a substring of the lowercased
string representation of the metadata mapping, in a key, a value, inside a
longer word, or in any letter case, forces action flag; and absent metadata,
defaulted to the empty mapping, never matches any keyword. -/
theorem claim_C10_keyword_substring (st : EngineState) (pid : String)
    (score : Rat) (pd : PaymentData) :
    (∀ kw ∈ suspicious_keywords,
      strHasSub kw.toList (pyLower (pyReprMetadata (metadataD pd))).toList = true →
      (make_decision st pid score pd).1.action = ("flag")) ∧
    (pd.metadata = none → keyword_match pd = false) := by
  constructor
  · intro kw hkw hsub
    have hkm : keyword_match pd = true := by
      unfold keyword_match
      exact List.any_eq_true.mpr ⟨kw, hkw, hsub⟩
    have hc : check_critical_patterns pd = true := by
      unfold check_critical_patterns
      split_ifs <;> simp [hkm]
    have hb : (make_decision st pid score pd).1 =
        { ladder_decision pid score pd with
          action := ("flag"), reason := ("Critical risk pattern detected") } :=
      body_override pid score pd hc
    rw [hb]
  · intro h
    unfold keyword_match metadataD
    rw [h]
    decide

/-- Witness for C10: the keyword hack hidden in upper-case HACKATHON flags,
and absent metadata matches nothing. -/
theorem claim_C10_witness :
    (make_decision ⟨[], 1, none, []⟩ ("p1") 10 pdHack).1.action = ("flag") ∧
    keyword_match pdNoMeta = false :=
  ⟨(claim_C10_keyword_substring ⟨[], 1, none, []⟩ ("p1") 10 pdHack).1
      ("hack") (by decide) (by decide),
   (claim_C10_keyword_substring ⟨[], 1, none, []⟩ ("p1") 10 pdNoMeta).2 rfl⟩

end SolCipher
